import Mathlib

set_option maxRecDepth 8192

/-!
Verification development for the EVVM viem signature library.

The TypeScript source is shallowly embedded in Lean:
* JS strings are Lean `String`s; the handful of `String.prototype`
  methods the library uses (`toLowerCase`, `toUpperCase`, `slice`,
  `startsWith`) are modelled on the ASCII domain the library works over
  (hex addresses, digests, usernames).
* JS `bigint` values in the library are chain ids, amounts, fees and
  nonces, i.e. unsigned quantities; they are modelled as `Nat`, with
  `toString` as decimal rendering and `toLocaleString` as decimal
  rendering with en-US thousands grouping (the Node default locale).
* A function that can `throw` returns `Except String α`, the error
  being the JS `Error` message (quotes in the original message text are
  dropped).
* An `async` builder method that awaits wallet signatures is modelled
  as a function of an explicit signer `String → Except String String`;
  a rejected promise is an `Except.error`.
* External viem primitives (`sha256`, `keccak256`, `encodeAbiParameters`,
  `encodePacked`) are cryptographic collaborators outside this
  repository; they are taken as abstract function parameters.
-/

namespace EvvmSig

/-- Decidable equality of `Except` results, so concrete runs of the
embedded functions can be checked by `decide`. -/
instance {ε α : Type} [DecidableEq ε] [DecidableEq α] : DecidableEq (Except ε α) := fun a b =>
  match a, b with
  | .ok x, .ok y => decidable_of_iff (x = y) (by simp)
  | .error x, .error y => decidable_of_iff (x = y) (by simp)
  | .ok _, .error _ => isFalse (by simp)
  | .error _, .ok _ => isFalse (by simp)

/-! ### JS primitives -/

/-- Model of `String.prototype.toLowerCase` on the ASCII domain. -/
def jsToLower (s : String) : String := ⟨s.data.map Char.toLower⟩

/-- Model of `String.prototype.toUpperCase` on the ASCII domain. -/
def jsToUpper (s : String) : String := ⟨s.data.map Char.toUpper⟩

/-- Model of `s.slice(n)`: drop the first `n` code units. -/
def jsSliceFrom (s : String) (n : Nat) : String := ⟨s.data.drop n⟩

/-- Model of `s.slice(0, n)`: take the first `n` code units. -/
def jsSliceTo (s : String) (n : Nat) : String := ⟨s.data.take n⟩

/-- Model of `s.startsWith(p)`. -/
def jsStartsWith (s p : String) : Bool := p.data.isPrefixOf s.data

/-- The string interpolation of a JS boolean: `"true"` / `"false"`. -/
def boolToString (b : Bool) : String := if b then "true" else "false"

/-- `bigint.toString()`: plain decimal rendering. -/
def bigintToString (n : Nat) : String := Nat.repr n

/-- Helper for `jsToLocaleString`: walks the reversed digit list and
emits a comma after every third digit (when more digits follow). -/
def groupRevAux : List Char → Nat → List Char
  | [], _ => []
  | c :: cs, k =>
    if k = 3 then ',' :: c :: groupRevAux cs 1
    else c :: groupRevAux cs (k + 1)

/-- `bigint.toLocaleString()` under the Node default locale (en-US):
decimal digits grouped in threes from the right, separated by commas. -/
def jsToLocaleString (n : Nat) : String :=
  ⟨(groupRevAux (Nat.repr n).data.reverse 0).reverse⟩

/-- A JS value passed where a string is expected; the payment builder
checks `typeof to !== "string" || !to` at runtime, so the embedding
keeps the non-string possibilities. -/
inductive JsVal where
  | undef : JsVal
  | num : Int → JsVal
  | str : String → JsVal
deriving DecidableEq, Repr

/-! ### `src/utils/constructMessage.ts` -/

/-- `basicMessageBuilder`: `evvmID + "," + functionName + "," + inputs`. -/
def basicMessageBuilder (evvmID functionName inputs : String) : String :=
  evvmID ++ "," ++ functionName ++ "," ++ inputs

/-- The message of the JS `Error` thrown by `buildMessageSignedForPay`
(quotes dropped). -/
def payToErrorMsg : String :=
  "Invalid to address passed to buildMessageSignedForPay: value is undefined or not a string"

/-- `buildMessageSignedForPay`: validates the `to` field, then formats
`pay` inputs through `basicMessageBuilder`. -/
def buildMessageSignedForPay (evvmID : Nat) (toVal : JsVal) (tokenAddress : String)
    (amount priorityFee nonce : Nat) (priorityFlag : Bool) (executor : String) :
    Except String String :=
  match toVal with
  | .str s =>
    if s = "" then .error payToErrorMsg
    else
      .ok (basicMessageBuilder (bigintToString evvmID) "pay"
        ((if jsStartsWith s "0x" then jsToLower s else s) ++ "," ++
          jsToLower tokenAddress ++ "," ++
          bigintToString amount ++ "," ++
          bigintToString priorityFee ++ "," ++
          bigintToString nonce ++ "," ++
          boolToString priorityFlag ++ "," ++
          jsToLower executor))
  | _ => .error payToErrorMsg

/-- `buildMessageSignedForDispersePay`. -/
def buildMessageSignedForDispersePay (evvmID : Nat) (hashList tokenAddress : String)
    (amount priorityFee nonce : Nat) (priorityFlag : Bool) (executor : String) : String :=
  basicMessageBuilder (bigintToString evvmID) "dispersePay"
    (("0x" ++ jsSliceFrom (jsToUpper hashList) 2) ++ "," ++
      jsToLower tokenAddress ++ "," ++
      bigintToString amount ++ "," ++
      bigintToString priorityFee ++ "," ++
      bigintToString nonce ++ "," ++
      boolToString priorityFlag ++ "," ++
      jsToLower executor)

/-- `buildMessageSignedForPublicStaking`. -/
def buildMessageSignedForPublicStaking (evvmID : Nat) (isStaking : Bool)
    (amountOfSMate nonce : Nat) : String :=
  basicMessageBuilder (bigintToString evvmID) "publicStaking"
    (boolToString isStaking ++ "," ++ bigintToString amountOfSMate ++ "," ++
      bigintToString nonce)

/-- `buildMessageSignedForPresaleStaking`; note the source renders the
amount and the nonce with `toLocaleString()`, unlike every sibling. -/
def buildMessageSignedForPresaleStaking (evvmID : Nat) (isStaking : Bool)
    (amountOfSMate nonce : Nat) : String :=
  basicMessageBuilder (bigintToString evvmID) "presaleStaking"
    (boolToString isStaking ++ "," ++ jsToLocaleString amountOfSMate ++ "," ++
      jsToLocaleString nonce)

/-- `buildMessageSignedForPublicServiceStake`. -/
def buildMessageSignedForPublicServiceStake (evvmID : Nat) (serviceAddress : String)
    (isStaking : Bool) (amountOfSMate nonce : Nat) : String :=
  basicMessageBuilder (bigintToString evvmID) "publicServiceStaking"
    (jsToLower serviceAddress ++ "," ++ boolToString isStaking ++ "," ++
      bigintToString amountOfSMate ++ "," ++ bigintToString nonce)

/-- `buildMessageSignedForPreRegistrationUsername`: the digest keeps its
first two code units lowercased and the remainder uppercased. -/
def buildMessageSignedForPreRegistrationUsername (evvmID : Nat) (hashUsername : String)
    (nonceNameService : Nat) : String :=
  basicMessageBuilder (bigintToString evvmID) "preRegistrationUsername"
    ((jsSliceTo (jsToLower hashUsername) 2 ++ jsSliceFrom (jsToUpper hashUsername) 2) ++
      "," ++ bigintToString nonceNameService)

/-- `buildMessageSignedForRegistrationUsername`. -/
def buildMessageSignedForRegistrationUsername (evvmID : Nat) (username : String)
    (clowNumber nonceNameService : Nat) : String :=
  basicMessageBuilder (bigintToString evvmID) "registrationUsername"
    (username ++ "," ++ bigintToString clowNumber ++ "," ++
      bigintToString nonceNameService)

/-- `buildMessageSignedForMakeOffer`. -/
def buildMessageSignedForMakeOffer (evvmID : Nat) (username : String)
    (dateExpire amount nonceNameService : Nat) : String :=
  basicMessageBuilder (bigintToString evvmID) "makeOffer"
    (username ++ "," ++ bigintToString dateExpire ++ "," ++
      bigintToString amount ++ "," ++ bigintToString nonceNameService)

/-- `buildMessageSignedForWithdrawOffer`. -/
def buildMessageSignedForWithdrawOffer (evvmID : Nat) (username : String)
    (offerId mateNameServiceNonce : Nat) : String :=
  basicMessageBuilder (bigintToString evvmID) "withdrawOffer"
    (username ++ "," ++ bigintToString offerId ++ "," ++
      bigintToString mateNameServiceNonce)

/-- `buildMessageSignedForAcceptOffer`. -/
def buildMessageSignedForAcceptOffer (evvmID : Nat) (username : String)
    (offerId mateNameServiceNonce : Nat) : String :=
  basicMessageBuilder (bigintToString evvmID) "acceptOffer"
    (username ++ "," ++ bigintToString offerId ++ "," ++
      bigintToString mateNameServiceNonce)

/-- `buildMessageSignedForRenewUsername`. -/
def buildMessageSignedForRenewUsername (evvmID : Nat) (username : String)
    (mateNameServiceNonce : Nat) : String :=
  basicMessageBuilder (bigintToString evvmID) "renewUsername"
    (username ++ "," ++ bigintToString mateNameServiceNonce)

/-- `buildMessageSignedForAddCustomMetadata`. -/
def buildMessageSignedForAddCustomMetadata (evvmID : Nat) (identity value : String)
    (mateNameServiceNonce : Nat) : String :=
  basicMessageBuilder (bigintToString evvmID) "addCustomMetadata"
    (identity ++ "," ++ value ++ "," ++ bigintToString mateNameServiceNonce)

/-- `buildMessageSignedForRemoveCustomMetadata`. -/
def buildMessageSignedForRemoveCustomMetadata (evvmID : Nat) (identity : String)
    (key nonceNameService : Nat) : String :=
  basicMessageBuilder (bigintToString evvmID) "removeCustomMetadata"
    (identity ++ "," ++ bigintToString key ++ "," ++ bigintToString nonceNameService)

/-- `buildMessageSignedForFlushCustomMetadata`. -/
def buildMessageSignedForFlushCustomMetadata (evvmID : Nat) (identity : String)
    (nonceNameService : Nat) : String :=
  basicMessageBuilder (bigintToString evvmID) "flushCustomMetadata"
    (identity ++ "," ++ bigintToString nonceNameService)

/-- `buildMessageSignedForFlushUsername`. -/
def buildMessageSignedForFlushUsername (evvmID : Nat) (username : String)
    (nonceNameService : Nat) : String :=
  basicMessageBuilder (bigintToString evvmID) "flushUsername"
    (username ++ "," ++ bigintToString nonceNameService)

/-- `constructMessageForDepositFisher` (legacy, does not route through
`basicMessageBuilder`). -/
def constructMessageForDepositFisher (isERC20 : Bool) (receiverAddress : String)
    (nonce : Nat) (tokenAddress priorityFee ammount : String) : String :=
  if isERC20 then
    jsToLower receiverAddress ++ "," ++ bigintToString nonce ++ "," ++
      jsToLower tokenAddress ++ "," ++ priorityFee ++ "," ++ ammount
  else
    jsToLower receiverAddress ++ "," ++ bigintToString nonce ++ "," ++
      priorityFee ++ "," ++ ammount

/-! ### Canonicalizers absent from the sources -/

/-- Modelled from the spec: `buildMessageSignedForMakeOrder` is missing
from the sources (only its caller in `signatures/p2pSwap.ts` is
present); per the general canonicalization contract it produces
`<chainId>,<operationName>,<fields>` with the caller's argument order
and lowercased addresses. -/
def buildMessageSignedForMakeOrder (evvmID nonce : Nat)
    (tokenA tokenB amountA amountB : String) : String :=
  basicMessageBuilder (bigintToString evvmID) "makeOrder"
    (bigintToString nonce ++ "," ++ jsToLower tokenA ++ "," ++ jsToLower tokenB ++
      "," ++ amountA ++ "," ++ amountB)

/-- Modelled from the spec: `buildMessageSignedForCancelOrder` is
missing from the sources (only its caller in `signatures/p2pSwap.ts` is
present); same general contract as `buildMessageSignedForMakeOrder`. -/
def buildMessageSignedForCancelOrder (evvmID nonce : Nat)
    (tokenA tokenB : String) (orderId : Nat) : String :=
  basicMessageBuilder (bigintToString evvmID) "cancelOrder"
    (bigintToString nonce ++ "," ++ jsToLower tokenA ++ "," ++ jsToLower tokenB ++
      "," ++ bigintToString orderId)

/-- Modelled from the spec: `buildMessageSignedForDispatchOrder` is
missing from the sources (only its caller in `signatures/p2pSwap.ts` is
present); same general contract as `buildMessageSignedForMakeOrder`. -/
def buildMessageSignedForDispatchOrder (evvmID nonce : Nat)
    (tokenA tokenB : String) (orderId : Nat) : String :=
  basicMessageBuilder (bigintToString evvmID) "dispatchOrder"
    (bigintToString nonce ++ "," ++ jsToLower tokenA ++ "," ++ jsToLower tokenB ++
      "," ++ bigintToString orderId)

/-! ### Hash helpers (`utils` hashing module) -/

/-- `DispersePayMetadata` from `types/evvm.ts`. -/
structure DispersePayMetadata where
  amount : Nat
  to_address : String
  to_identity : String
deriving DecidableEq, Repr

/-- `hashDispersePaymentUsersToPay`: maps each recipient record to the
tuple `(amount, to_address, to_identity)` and hashes the ABI-encoded
tuple list. `sha256` and `encodeAbiParameters` live in viem and are
abstract parameters here. -/
def hashDispersePaymentUsersToPay (sha256 : String → String)
    (encodeAbiDisperse : List (Nat × String × String) → String)
    (toData : List DispersePayMetadata) : String :=
  let formattedData := toData.map (fun item => (item.amount, item.to_address, item.to_identity))
  sha256 (encodeAbiDisperse formattedData)

/-! ### Signature builders

Each `async` method of the builder classes is embedded as a function of
an explicit wallet signer (the `walletClient.signMessage` capability);
a rejected signing promise is an `Except.error`, and a thrown canonical
message error propagates the same way. -/

/-- A wallet signer: `signMessage` restricted to the fixed account. -/
abbrev Signer := String → Except String String

/-- `StakingDualSignatureResult` from `signatures/staking.ts`. -/
structure StakingDualSignatureResult where
  paySignature : Option String
  actionSignature : String
deriving DecidableEq, Repr

/-- `DualSignatureResult` from the NameService builder. -/
structure DualSignatureResult where
  paySignature : Option String
  actionSignature : String
deriving DecidableEq, Repr

/-- `StakingSignatureBuilder.signGoldenStaking`. -/
def signGoldenStaking (signer : Signer) (evvmID : Nat) (stakingAddress : String)
    (totalPrice nonceEVVM : Nat) (priorityFlag : Bool) : Except String String := do
  let payMessage ← buildMessageSignedForPay evvmID (.str stakingAddress)
    "0x0000000000000000000000000000000000000001" totalPrice 0 nonceEVVM
    priorityFlag stakingAddress
  signer payMessage

/-- `StakingSignatureBuilder.signPresaleStaking`: builds both messages,
then signs the staking message and the pay message in that order. -/
def signPresaleStaking (signer : Signer) (evvmID : Nat) (stakingAddress : String)
    (isStaking : Bool) (nonce priorityFee_EVVM totalPrice nonce_EVVM : Nat)
    (priorityFlag_EVVM : Bool) : Except String StakingDualSignatureResult := do
  let stakingMessage := buildMessageSignedForPresaleStaking evvmID isStaking totalPrice nonce
  let payMessage ← buildMessageSignedForPay evvmID (.str stakingAddress)
    "0x0000000000000000000000000000000000000001"
    (if isStaking then totalPrice else 0) priorityFee_EVVM nonce_EVVM
    priorityFlag_EVVM stakingAddress
  let actionSignature ← signer stakingMessage
  let paySignature ← signer payMessage
  pure ⟨some paySignature, actionSignature⟩

/-- `StakingSignatureBuilder.signPublicStaking`: builds both messages,
then signs the staking message and the pay message in that order. -/
def signPublicStaking (signer : Signer) (evvmID : Nat) (stakingAddress : String)
    (isStaking : Bool) (stakingAmount nonceStaking totalPrice priorityFee nonceEVVM : Nat)
    (priorityFlag : Bool) : Except String StakingDualSignatureResult := do
  let stakingMessage := buildMessageSignedForPublicStaking evvmID isStaking
    stakingAmount nonceStaking
  let payMessage ← buildMessageSignedForPay evvmID (.str stakingAddress)
    "0x0000000000000000000000000000000000000001"
    (if isStaking then totalPrice else 0) priorityFee nonceEVVM
    priorityFlag stakingAddress
  let actionSignature ← signer stakingMessage
  let paySignature ← signer payMessage
  pure ⟨some paySignature, actionSignature⟩

/-- `NameServiceSignatureBuilder.signPreRegistrationUsername`: signs the
pre-registration message; only when `priorityFee_EVVM > 0` does it also
build and sign a companion pay message. `hashPreRegisteredUsername`
(keccak over a packed encoding, from viem) is an abstract parameter. -/
def signPreRegistrationUsername (hashPreRegisteredUsername : String → Nat → String)
    (signer : Signer) (evvmID : Nat) (addressNameService username : String)
    (clowNumber nonce priorityFee_EVVM nonce_EVVM : Nat) (priorityFlag_EVVM : Bool) :
    Except String DualSignatureResult := do
  let hashPreReg := hashPreRegisteredUsername username clowNumber
  let preRegistrationMessage := buildMessageSignedForPreRegistrationUsername
    evvmID hashPreReg nonce
  let actionSignature ← signer preRegistrationMessage
  if priorityFee_EVVM > 0 then
    let payMessage ← buildMessageSignedForPay evvmID (.str addressNameService)
      "0x0000000000000000000000000000000000000001" priorityFee_EVVM 0 nonce_EVVM
      priorityFlag_EVVM addressNameService
    let paySignature ← signer payMessage
    pure ⟨some paySignature, actionSignature⟩
  else
    pure ⟨none, actionSignature⟩

/-- `NameServiceSignatureBuilder.signRegistrationUsername` (conditional
companion pay signature, same pattern as pre-registration). -/
def signRegistrationUsername (signer : Signer) (evvmID : Nat)
    (addressNameService username : String)
    (clowNumber nonce priorityFee_EVVM nonce_EVVM : Nat) (priorityFlag_EVVM : Bool) :
    Except String DualSignatureResult := do
  let registrationMessage := buildMessageSignedForRegistrationUsername
    evvmID username clowNumber nonce
  let actionSignature ← signer registrationMessage
  if priorityFee_EVVM > 0 then
    let payMessage ← buildMessageSignedForPay evvmID (.str addressNameService)
      "0x0000000000000000000000000000000000000001" priorityFee_EVVM 0 nonce_EVVM
      priorityFlag_EVVM addressNameService
    let paySignature ← signer payMessage
    pure ⟨some paySignature, actionSignature⟩
  else
    pure ⟨none, actionSignature⟩

/-- `EVVMSignatureBuilder.signPay`. -/
def signPay (signer : Signer) (evvmID : Nat) (toVal : JsVal) (tokenAddress : String)
    (amount priorityFee nonce : Nat) (priorityFlag : Bool) (executor : String) :
    Except String String := do
  let message ← buildMessageSignedForPay evvmID toVal tokenAddress amount
    priorityFee nonce priorityFlag executor
  signer message

/-- `EVVMSignatureBuilder.signDispersePay`: hashes the recipient list,
splices the digest into the disperse-pay message, and signs it. -/
def signDispersePay (sha256 : String → String)
    (encodeAbiDisperse : List (Nat × String × String) → String) (signer : Signer)
    (evvmID : Nat) (toData : List DispersePayMetadata) (tokenAddress : String)
    (amount priorityFee nonce : Nat) (priorityFlag : Bool) (executor : String) :
    Except String String :=
  let hashedEncodedData := hashDispersePaymentUsersToPay sha256 encodeAbiDisperse toData
  let message := buildMessageSignedForDispersePay evvmID hashedEncodedData tokenAddress
    amount priorityFee nonce priorityFlag executor
  signer message

/-- `GenericSignatureBuilder.buildGenericMessage`. -/
def buildGenericMessage (evvmID : Nat) (functionName inputs : String) : String :=
  bigintToString evvmID ++ "," ++ functionName ++ "," ++ inputs

/-! ### Hex-letter case variation

"Two address (or digest) inputs differing only in hexadecimal letter
case" is formalized as a charwise relation: each position holds either
the same character or an upper/lower variant of one of the hex letters
`a`–`f`. -/

/-- The twelve upper/lower variants of the hex letters `a`–`f`. -/
def hexLetterPairs : List (Char × Char) :=
  [('a', 'A'), ('A', 'a'), ('b', 'B'), ('B', 'b'), ('c', 'C'), ('C', 'c'),
   ('d', 'D'), ('D', 'd'), ('e', 'E'), ('E', 'e'), ('f', 'F'), ('F', 'f')]

/-- Characters equal up to hex-letter case. -/
def CharHexCaseEq (a b : Char) : Prop := a = b ∨ (a, b) ∈ hexLetterPairs

instance (a b : Char) : Decidable (CharHexCaseEq a b) :=
  inferInstanceAs (Decidable (_ ∨ _))

/-- Character lists equal up to hex-letter case. -/
def hexCaseEqL : List Char → List Char → Bool
  | [], [] => true
  | a :: as, b :: bs => decide (CharHexCaseEq a b) && hexCaseEqL as bs
  | _, _ => false

/-- Strings equal up to hex-letter case ("differing only in hexadecimal
letter case"). -/
def hexCaseEq (s t : String) : Bool := hexCaseEqL s.data t.data

theorem charHexCaseEq_case {a b : Char} (h : CharHexCaseEq a b) :
    a.toLower = b.toLower ∧ a.toUpper = b.toUpper := by
  rcases h with rfl | h
  · exact ⟨rfl, rfl⟩
  · fin_cases h <;> exact ⟨by decide, by decide⟩

theorem hexCaseEqL_maps :
    ∀ as bs, hexCaseEqL as bs = true →
      as.map Char.toLower = bs.map Char.toLower ∧
      as.map Char.toUpper = bs.map Char.toUpper := by
  intro as
  induction as with
  | nil =>
    intro bs h
    cases bs with
    | nil => exact ⟨rfl, rfl⟩
    | cons b bs => simp [hexCaseEqL] at h
  | cons a as ih =>
    intro bs h
    cases bs with
    | nil => simp [hexCaseEqL] at h
    | cons b bs =>
      simp only [hexCaseEqL, Bool.and_eq_true, decide_eq_true_eq] at h
      obtain ⟨h1, h2⟩ := h
      obtain ⟨hl, hu⟩ := charHexCaseEq_case h1
      obtain ⟨hls, hus⟩ := ih bs h2
      simp [List.map, hl, hu, hls, hus]

theorem hexCaseEq_jsToLower {s t : String} (h : hexCaseEq s t = true) :
    jsToLower s = jsToLower t :=
  congrArg String.mk (hexCaseEqL_maps s.data t.data h).1

theorem hexCaseEq_jsToUpper {s t : String} (h : hexCaseEq s t = true) :
    jsToUpper s = jsToUpper t :=
  congrArg String.mk (hexCaseEqL_maps s.data t.data h).2

theorem charHexCaseEq_zero {b : Char} (h : CharHexCaseEq '0' b) : b = '0' := by
  rcases h with rfl | h
  · rfl
  · simp [hexLetterPairs] at h

theorem charHexCaseEq_x {b : Char} (h : CharHexCaseEq 'x' b) : b = 'x' := by
  rcases h with rfl | h
  · rfl
  · simp [hexLetterPairs] at h

/-- Hex-letter case variation preserves the `0x` address marker. -/
theorem hexCaseEq_startsWith_0x {s t : String} (h0 : jsStartsWith s "0x" = true)
    (h : hexCaseEq s t = true) : jsStartsWith t "0x" = true := by
  unfold jsStartsWith at h0 ⊢
  unfold hexCaseEq at h
  have hdata : "0x".data = ['0', 'x'] := rfl
  rw [hdata] at h0 ⊢
  cases hs : s.data with
  | nil => rw [hs] at h0; simp [List.isPrefixOf] at h0
  | cons a as =>
    rw [hs] at h0 h
    cases as with
    | nil =>
      simp only [List.isPrefixOf, Bool.and_eq_true, beq_iff_eq] at h0
      exact absurd h0.2 (by simp [List.isPrefixOf])
    | cons a2 as2 =>
      simp only [List.isPrefixOf, Bool.and_eq_true, beq_iff_eq] at h0
      obtain ⟨rfl, h02, -⟩ := h0
      cases ht : t.data with
      | nil => rw [ht] at h; simp [hexCaseEqL] at h
      | cons b bs =>
        rw [ht] at h
        cases bs with
        | nil => simp [hexCaseEqL] at h
        | cons b2 bs2 =>
          simp only [hexCaseEqL, Bool.and_eq_true, decide_eq_true_eq] at h
          obtain ⟨hb, hb2, -⟩ := h
          rw [← h02] at hb2
          rw [charHexCaseEq_zero hb, charHexCaseEq_x hb2]
          simp [List.isPrefixOf]

/-- A string starting with `0x` is nonempty. -/
theorem jsStartsWith_0x_ne_empty {s : String} (h : jsStartsWith s "0x" = true) :
    s ≠ "" := by
  intro he
  subst he
  exact absurd h (by decide)

/-! ### Claim theorems -/

/-- C1 (counterexample): with chain id 1, recipient
`0x742d35cc6634c0532925a3b8d138068fd4c1b7a1`, the native token, amount
`1000000000000000000`, priority fee `50000000000000000`, nonce 1,
priority flag true and the recipient as executor, `buildMessageSignedForPay`
does not return the `ef83c1d6,...`-prefixed string the claim expects. -/
theorem c1_pay_counterexample :
    buildMessageSignedForPay 1 (.str "0x742d35cc6634c0532925a3b8d138068fd4c1b7a1")
        "0x0000000000000000000000000000000000000000" 1000000000000000000
        50000000000000000 1 true "0x742d35cc6634c0532925a3b8d138068fd4c1b7a1" ≠
      Except.ok
        "ef83c1d6,1,0x742d35cc6634c0532925a3b8d138068fd4c1b7a1,0x0000000000000000000000000000000000000000,1000000000000000000,50000000000000000,1,true,0x742d35cc6634c0532925a3b8d138068fd4c1b7a1" := by
  decide

/-- C1 (amended): on those inputs the pay canonicalizer returns exactly
`1,pay,0x742d35cc6634c0532925a3b8d138068fd4c1b7a1,0x0000000000000000000000000000000000000000,1000000000000000000,50000000000000000,1,true,0x742d35cc6634c0532925a3b8d138068fd4c1b7a1`. -/
theorem c1_pay_amended :
    buildMessageSignedForPay 1 (.str "0x742d35cc6634c0532925a3b8d138068fd4c1b7a1")
        "0x0000000000000000000000000000000000000000" 1000000000000000000
        50000000000000000 1 true "0x742d35cc6634c0532925a3b8d138068fd4c1b7a1" =
      Except.ok
        "1,pay,0x742d35cc6634c0532925a3b8d138068fd4c1b7a1,0x0000000000000000000000000000000000000000,1000000000000000000,50000000000000000,1,true,0x742d35cc6634c0532925a3b8d138068fd4c1b7a1" := by
  decide

/-- C4: at amount `5083000000000000000000` (and nonce 1, chain id 1,
staking flag true) the presale-staking canonicalizer renders the amount
through `toLocaleString()`, embedding locale-grouped digits rather than
the plain decimal field `5083000000000000000000` the claim (and the
repository test suite) requires. -/
theorem c4_presale_locale_bug :
    buildMessageSignedForPresaleStaking 1 true 5083000000000000000000 1 =
      "1,presaleStaking,true,5,083,000,000,000,000,000,000,1" := by
  decide

/-- C5: the pay canonicalizer reports a validation error exactly when
the recipient value is undefined, not a string, or the empty string;
for any nonempty string recipient (with well-typed remaining fields) it
formats successfully. It performs no signing call: it is a pure
formatting function. -/
theorem c5_pay_validation (evvmID : Nat) (toVal : JsVal) (token : String)
    (amount fee nonce : Nat) (flag : Bool) (exec : String) :
    (∃ m, buildMessageSignedForPay evvmID toVal token amount fee nonce flag exec =
        .error m) ↔
      (toVal = .undef ∨ (∃ k, toVal = .num k) ∨ toVal = .str "") := by
  cases toVal with
  | undef => simp [buildMessageSignedForPay]
  | num k => simp [buildMessageSignedForPay]
  | str s =>
    by_cases hs : s = "" <;> simp [buildMessageSignedForPay, hs]

/-- C2: every operation canonicalizes to
`<chainId>,<operationName>,<field1>,<field2>,...`: the first field is
the decimal chain id, the second a fixed literal operation name, then
the operation fields in fixed order (for pay, once the recipient is a
well-typed nonempty string). -/
theorem c2_message_shape :
    (∀ (evvmID : Nat) (s token : String) (amount fee nonce : Nat) (flag : Bool)
        (exec : String), s ≠ "" →
      buildMessageSignedForPay evvmID (.str s) token amount fee nonce flag exec =
        .ok (bigintToString evvmID ++ "," ++ "pay" ++ "," ++
          ((if jsStartsWith s "0x" then jsToLower s else s) ++ "," ++
            jsToLower token ++ "," ++ bigintToString amount ++ "," ++
            bigintToString fee ++ "," ++ bigintToString nonce ++ "," ++
            boolToString flag ++ "," ++ jsToLower exec))) ∧
    (∀ (evvmID : Nat) (hashList token : String) (amount fee nonce : Nat)
        (flag : Bool) (exec : String),
      buildMessageSignedForDispersePay evvmID hashList token amount fee nonce flag exec =
        bigintToString evvmID ++ "," ++ "dispersePay" ++ "," ++
          (("0x" ++ jsSliceFrom (jsToUpper hashList) 2) ++ "," ++
            jsToLower token ++ "," ++ bigintToString amount ++ "," ++
            bigintToString fee ++ "," ++ bigintToString nonce ++ "," ++
            boolToString flag ++ "," ++ jsToLower exec)) ∧
    (∀ (evvmID : Nat) (isStaking : Bool) (amountOfSMate nonce : Nat),
      buildMessageSignedForPublicStaking evvmID isStaking amountOfSMate nonce =
        bigintToString evvmID ++ "," ++ "publicStaking" ++ "," ++
          (boolToString isStaking ++ "," ++ bigintToString amountOfSMate ++ "," ++
            bigintToString nonce)) ∧
    (∀ (evvmID : Nat) (isStaking : Bool) (amountOfSMate nonce : Nat),
      buildMessageSignedForPresaleStaking evvmID isStaking amountOfSMate nonce =
        bigintToString evvmID ++ "," ++ "presaleStaking" ++ "," ++
          (boolToString isStaking ++ "," ++ jsToLocaleString amountOfSMate ++ "," ++
            jsToLocaleString nonce)) ∧
    (∀ (evvmID : Nat) (serviceAddress : String) (isStaking : Bool)
        (amountOfSMate nonce : Nat),
      buildMessageSignedForPublicServiceStake evvmID serviceAddress isStaking
          amountOfSMate nonce =
        bigintToString evvmID ++ "," ++ "publicServiceStaking" ++ "," ++
          (jsToLower serviceAddress ++ "," ++ boolToString isStaking ++ "," ++
            bigintToString amountOfSMate ++ "," ++ bigintToString nonce)) ∧
    (∀ (evvmID : Nat) (hashUsername : String) (nonce : Nat),
      buildMessageSignedForPreRegistrationUsername evvmID hashUsername nonce =
        bigintToString evvmID ++ "," ++ "preRegistrationUsername" ++ "," ++
          ((jsSliceTo (jsToLower hashUsername) 2 ++
            jsSliceFrom (jsToUpper hashUsername) 2) ++ "," ++ bigintToString nonce)) ∧
    (∀ (evvmID : Nat) (username : String) (clowNumber nonce : Nat),
      buildMessageSignedForRegistrationUsername evvmID username clowNumber nonce =
        bigintToString evvmID ++ "," ++ "registrationUsername" ++ "," ++
          (username ++ "," ++ bigintToString clowNumber ++ "," ++
            bigintToString nonce)) ∧
    (∀ (evvmID : Nat) (username : String) (dateExpire amount nonce : Nat),
      buildMessageSignedForMakeOffer evvmID username dateExpire amount nonce =
        bigintToString evvmID ++ "," ++ "makeOffer" ++ "," ++
          (username ++ "," ++ bigintToString dateExpire ++ "," ++
            bigintToString amount ++ "," ++ bigintToString nonce)) ∧
    (∀ (evvmID : Nat) (username : String) (offerId nonce : Nat),
      buildMessageSignedForWithdrawOffer evvmID username offerId nonce =
        bigintToString evvmID ++ "," ++ "withdrawOffer" ++ "," ++
          (username ++ "," ++ bigintToString offerId ++ "," ++ bigintToString nonce)) ∧
    (∀ (evvmID : Nat) (username : String) (offerId nonce : Nat),
      buildMessageSignedForAcceptOffer evvmID username offerId nonce =
        bigintToString evvmID ++ "," ++ "acceptOffer" ++ "," ++
          (username ++ "," ++ bigintToString offerId ++ "," ++ bigintToString nonce)) ∧
    (∀ (evvmID : Nat) (username : String) (nonce : Nat),
      buildMessageSignedForRenewUsername evvmID username nonce =
        bigintToString evvmID ++ "," ++ "renewUsername" ++ "," ++
          (username ++ "," ++ bigintToString nonce)) ∧
    (∀ (evvmID : Nat) (identity value : String) (nonce : Nat),
      buildMessageSignedForAddCustomMetadata evvmID identity value nonce =
        bigintToString evvmID ++ "," ++ "addCustomMetadata" ++ "," ++
          (identity ++ "," ++ value ++ "," ++ bigintToString nonce)) ∧
    (∀ (evvmID : Nat) (identity : String) (key nonce : Nat),
      buildMessageSignedForRemoveCustomMetadata evvmID identity key nonce =
        bigintToString evvmID ++ "," ++ "removeCustomMetadata" ++ "," ++
          (identity ++ "," ++ bigintToString key ++ "," ++ bigintToString nonce)) ∧
    (∀ (evvmID : Nat) (identity : String) (nonce : Nat),
      buildMessageSignedForFlushCustomMetadata evvmID identity nonce =
        bigintToString evvmID ++ "," ++ "flushCustomMetadata" ++ "," ++
          (identity ++ "," ++ bigintToString nonce)) ∧
    (∀ (evvmID : Nat) (username : String) (nonce : Nat),
      buildMessageSignedForFlushUsername evvmID username nonce =
        bigintToString evvmID ++ "," ++ "flushUsername" ++ "," ++
          (username ++ "," ++ bigintToString nonce)) ∧
    (∀ (evvmID nonce : Nat) (tokenA tokenB amountA amountB : String),
      buildMessageSignedForMakeOrder evvmID nonce tokenA tokenB amountA amountB =
        bigintToString evvmID ++ "," ++ "makeOrder" ++ "," ++
          (bigintToString nonce ++ "," ++ jsToLower tokenA ++ "," ++
            jsToLower tokenB ++ "," ++ amountA ++ "," ++ amountB)) ∧
    (∀ (evvmID nonce : Nat) (tokenA tokenB : String) (orderId : Nat),
      buildMessageSignedForCancelOrder evvmID nonce tokenA tokenB orderId =
        bigintToString evvmID ++ "," ++ "cancelOrder" ++ "," ++
          (bigintToString nonce ++ "," ++ jsToLower tokenA ++ "," ++
            jsToLower tokenB ++ "," ++ bigintToString orderId)) ∧
    (∀ (evvmID nonce : Nat) (tokenA tokenB : String) (orderId : Nat),
      buildMessageSignedForDispatchOrder evvmID nonce tokenA tokenB orderId =
        bigintToString evvmID ++ "," ++ "dispatchOrder" ++ "," ++
          (bigintToString nonce ++ "," ++ jsToLower tokenA ++ "," ++
            jsToLower tokenB ++ "," ++ bigintToString orderId)) := by
  refine ⟨?_, ?_, ?_, ?_, ?_, ?_, ?_, ?_, ?_, ?_, ?_, ?_, ?_, ?_, ?_, ?_, ?_, ?_⟩
  · intro evvmID s token amount fee nonce flag exec h
    simp [buildMessageSignedForPay, basicMessageBuilder, h]
  all_goals intros; rfl

/-- C2 (witness): the pay conjunct applied at a concrete tuple. -/
theorem c2_witness :
    buildMessageSignedForPay 1 (.str "0x742d35cc6634c0532925a3b8d138068fd4c1b7a1")
        "0x0000000000000000000000000000000000000000" 2 3 4 true
        "0x742d35cc6634c0532925a3b8d138068fd4c1b7a1" =
      .ok (bigintToString 1 ++ "," ++ "pay" ++ "," ++
        ((if jsStartsWith "0x742d35cc6634c0532925a3b8d138068fd4c1b7a1" "0x" then
            jsToLower "0x742d35cc6634c0532925a3b8d138068fd4c1b7a1"
          else "0x742d35cc6634c0532925a3b8d138068fd4c1b7a1") ++ "," ++
          jsToLower "0x0000000000000000000000000000000000000000" ++ "," ++
          bigintToString 2 ++ "," ++ bigintToString 3 ++ "," ++ bigintToString 4 ++
          "," ++ boolToString true ++ "," ++
          jsToLower "0x742d35cc6634c0532925a3b8d138068fd4c1b7a1")) :=
  c2_message_shape.1 1 "0x742d35cc6634c0532925a3b8d138068fd4c1b7a1"
    "0x0000000000000000000000000000000000000000" 2 3 4 true
    "0x742d35cc6634c0532925a3b8d138068fd4c1b7a1" (by decide)

/-- C6: for each canonicalizer taking address-valued fields, two
parameter tuples that differ only in the hex-letter case of an address
field (for pay, a `0x`-prefixed recipient) canonicalize to identical
strings, because addresses are lowercased. -/
theorem c6_address_case_insensitive :
    (∀ (evvmID : Nat) (s s2 token token2 : String) (amount fee nonce : Nat)
        (flag : Bool) (exec exec2 : String),
      jsStartsWith s "0x" = true → hexCaseEq s s2 = true →
      hexCaseEq token token2 = true → hexCaseEq exec exec2 = true →
      buildMessageSignedForPay evvmID (.str s) token amount fee nonce flag exec =
        buildMessageSignedForPay evvmID (.str s2) token2 amount fee nonce flag exec2) ∧
    (∀ (evvmID : Nat) (hashList token token2 : String) (amount fee nonce : Nat)
        (flag : Bool) (exec exec2 : String),
      hexCaseEq token token2 = true → hexCaseEq exec exec2 = true →
      buildMessageSignedForDispersePay evvmID hashList token amount fee nonce flag exec =
        buildMessageSignedForDispersePay evvmID hashList token2 amount fee nonce flag exec2) ∧
    (∀ (evvmID : Nat) (svc svc2 : String) (isStaking : Bool) (amount nonce : Nat),
      hexCaseEq svc svc2 = true →
      buildMessageSignedForPublicServiceStake evvmID svc isStaking amount nonce =
        buildMessageSignedForPublicServiceStake evvmID svc2 isStaking amount nonce) ∧
    (∀ (isERC20 : Bool) (recv recv2 : String) (nonce : Nat) (tok tok2 pf am : String),
      hexCaseEq recv recv2 = true → hexCaseEq tok tok2 = true →
      constructMessageForDepositFisher isERC20 recv nonce tok pf am =
        constructMessageForDepositFisher isERC20 recv2 nonce tok2 pf am) := by
  refine ⟨?_, ?_, ?_, ?_⟩
  · intro evvmID s s2 token token2 amount fee nonce flag exec exec2 h0 hs ht he
    have h02 := hexCaseEq_startsWith_0x h0 hs
    have hne := jsStartsWith_0x_ne_empty h0
    have hne2 := jsStartsWith_0x_ne_empty h02
    simp only [buildMessageSignedForPay]
    rw [if_neg hne, if_neg hne2, if_pos h0, if_pos h02,
      hexCaseEq_jsToLower hs, hexCaseEq_jsToLower ht, hexCaseEq_jsToLower he]
  · intro evvmID hashList token token2 amount fee nonce flag exec exec2 ht he
    simp only [buildMessageSignedForDispersePay]
    rw [hexCaseEq_jsToLower ht, hexCaseEq_jsToLower he]
  · intro evvmID svc svc2 isStaking amount nonce hsvc
    simp only [buildMessageSignedForPublicServiceStake]
    rw [hexCaseEq_jsToLower hsvc]
  · intro isERC20 recv recv2 nonce tok tok2 pf am hr ht
    cases isERC20 <;>
      simp [constructMessageForDepositFisher, hexCaseEq_jsToLower hr,
        hexCaseEq_jsToLower ht]

/-- C6 (witness): the pay conjunct applied to two concrete tuples that
differ only in hex-letter case. -/
theorem c6_witness :
    buildMessageSignedForPay 1 (.str "0x742D35CC6634C0532925A3B8D138068FD4C1B7A1")
        "0xAbCd" 5 6 7 true "0xEf01" =
      buildMessageSignedForPay 1 (.str "0x742d35cc6634c0532925a3b8d138068fd4c1b7a1")
        "0xaBcD" 5 6 7 true "0xeF01" :=
  c6_address_case_insensitive.1 1 "0x742D35CC6634C0532925A3B8D138068FD4C1B7A1"
    "0x742d35cc6634c0532925a3b8d138068fd4c1b7a1" "0xAbCd" "0xaBcD" 5 6 7 true
    "0xEf01" "0xeF01" (by decide) (by decide) (by decide) (by decide)

/-- The dropped-and-uppercased tail of a `0x`-prefixed digest is the
uppercased digest body. -/
theorem jsSliceFrom_jsToUpper_0x (body : String) :
    jsSliceFrom (jsToUpper ("0x" ++ body)) 2 = jsToUpper body := by
  have hdata : ("0x" ++ body).data = '0' :: 'x' :: body.data := rfl
  simp only [jsSliceFrom, jsToUpper, hdata, List.map_cons, List.drop_succ_cons,
    List.drop_zero]

/-- C9: digest fields are not lowercased: the disperse-pay message
embeds `0x` followed by the uppercased digest body, the
pre-registration message embeds the digest with its first two
characters lowercased and the rest uppercased, and in both operations
digests differing only in letter case canonicalize identically. -/
theorem c9_digest_case :
    (∀ (evvmID : Nat) (body token : String) (amount fee nonce : Nat) (flag : Bool)
        (exec : String),
      buildMessageSignedForDispersePay evvmID ("0x" ++ body) token amount fee nonce
          flag exec =
        basicMessageBuilder (bigintToString evvmID) "dispersePay"
          (("0x" ++ jsToUpper body) ++ "," ++ jsToLower token ++ "," ++
            bigintToString amount ++ "," ++ bigintToString fee ++ "," ++
            bigintToString nonce ++ "," ++ boolToString flag ++ "," ++
            jsToLower exec)) ∧
    (∀ (evvmID : Nat) (hashU : String) (nonce : Nat),
      buildMessageSignedForPreRegistrationUsername evvmID hashU nonce =
        basicMessageBuilder (bigintToString evvmID) "preRegistrationUsername"
          ((String.mk ((hashU.data.take 2).map Char.toLower) ++
            String.mk ((hashU.data.drop 2).map Char.toUpper)) ++ "," ++
            bigintToString nonce)) ∧
    (∀ (evvmID : Nat) (d1 d2 token : String) (amount fee nonce : Nat) (flag : Bool)
        (exec : String), hexCaseEq d1 d2 = true →
      buildMessageSignedForDispersePay evvmID d1 token amount fee nonce flag exec =
        buildMessageSignedForDispersePay evvmID d2 token amount fee nonce flag exec) ∧
    (∀ (evvmID : Nat) (d1 d2 : String) (nonce : Nat), hexCaseEq d1 d2 = true →
      buildMessageSignedForPreRegistrationUsername evvmID d1 nonce =
        buildMessageSignedForPreRegistrationUsername evvmID d2 nonce) := by
  refine ⟨?_, ?_, ?_, ?_⟩
  · intro evvmID body token amount fee nonce flag exec
    simp only [buildMessageSignedForDispersePay, jsSliceFrom_jsToUpper_0x]
  · intro evvmID hashU nonce
    simp only [buildMessageSignedForPreRegistrationUsername, jsSliceTo, jsSliceFrom,
      jsToLower, jsToUpper, List.map_take, List.map_drop]
  · intro evvmID d1 d2 token amount fee nonce flag exec hd
    simp only [buildMessageSignedForDispersePay]
    rw [hexCaseEq_jsToUpper hd]
  · intro evvmID d1 d2 nonce hd
    simp only [buildMessageSignedForPreRegistrationUsername]
    rw [hexCaseEq_jsToUpper hd, hexCaseEq_jsToLower hd]

/-- C9 (witness): the disperse-pay and pre-registration digest
conjuncts applied to two concrete digests differing only in case. -/
theorem c9_witness :
    buildMessageSignedForDispersePay 1 "0xAbCdEf12" "0xToK" 2 3 4 false "0xEx" =
      buildMessageSignedForDispersePay 1 "0xaBcDeF12" "0xToK" 2 3 4 false "0xEx" ∧
    buildMessageSignedForPreRegistrationUsername 1 "0xAbCdEf12" 9 =
      buildMessageSignedForPreRegistrationUsername 1 "0xaBcDeF12" 9 :=
  ⟨c9_digest_case.2.2.1 1 "0xAbCdEf12" "0xaBcDeF12" "0xToK" 2 3 4 false "0xEx"
      (by decide),
    c9_digest_case.2.2.2 1 "0xAbCdEf12" "0xaBcDeF12" 9 (by decide)⟩

/-- Two canonical messages built over the same chain id but the
operation names `pay` and `preRegistrationUsername` are distinct. -/
theorem basic_pay_ne_preReg (idStr x y : String) :
    basicMessageBuilder idStr "pay" x ≠
      basicMessageBuilder idStr "preRegistrationUsername" y := by
  intro h
  have hd := congrArg String.data h
  simp only [basicMessageBuilder, String.data_append, List.append_assoc] at hd
  have h2 := List.append_cancel_left hd
  simp at h2

/-- C3 (counterexample): `signPublicStaking` with priority fee 0 (and
total price 0) still returns a result whose `paySignature` is present,
contradicting the claimed "present iff non-zero fee". -/
theorem c3_counterexample :
    Except.map (fun r : StakingDualSignatureResult => r.paySignature.isSome)
      (signPublicStaking (fun m => Except.ok m) 1
        "0x1111111111111111111111111111111111111111" true 10 1 0 0 1 false) =
      Except.ok true := by decide

/-- C3 (amended): the NameService builder attaches `paySignature`
exactly when the priority fee is non-zero, and the pay message it signs
is distinct from the action message; the staking dual-signature
builders (`signPublicStaking`, `signPresaleStaking`) attach
`paySignature` in every successful result regardless of the fee. -/
theorem c3_dual_signature_amended :
    (∀ (hashFn : String → Nat → String) (signer : Signer) (evvmID : Nat)
        (addr username : String) (clowNumber nonce fee nE : Nat) (flag : Bool)
        (r : DualSignatureResult),
      signPreRegistrationUsername hashFn signer evvmID addr username clowNumber
          nonce fee nE flag = .ok r →
      (r.paySignature.isSome ↔ 0 < fee)) ∧
    (∀ (hashFn : String → Nat → String) (evvmID : Nat) (addr username : String)
        (clowNumber nonce fee nE : Nat) (flag : Bool) (pm : String),
      buildMessageSignedForPay evvmID (.str addr)
          "0x0000000000000000000000000000000000000001" fee 0 nE flag addr = .ok pm →
      pm ≠ buildMessageSignedForPreRegistrationUsername evvmID
        (hashFn username clowNumber) nonce) ∧
    (∀ (signer : Signer) (evvmID : Nat) (addr : String) (isStaking : Bool)
        (amt nSt tp fee nE : Nat) (flag : Bool) (r : StakingDualSignatureResult),
      signPublicStaking signer evvmID addr isStaking amt nSt tp fee nE flag = .ok r →
      r.paySignature.isSome = true) ∧
    (∀ (signer : Signer) (evvmID : Nat) (addr : String) (isStaking : Bool)
        (nonce fee tp nE : Nat) (flag : Bool) (r : StakingDualSignatureResult),
      signPresaleStaking signer evvmID addr isStaking nonce fee tp nE flag = .ok r →
      r.paySignature.isSome = true) ∧
    (∀ (signer : Signer) (evvmID : Nat) (addr username : String)
        (clowNumber nonce fee nE : Nat) (flag : Bool) (r : DualSignatureResult),
      signRegistrationUsername signer evvmID addr username clowNumber nonce fee nE
          flag = .ok r →
      (r.paySignature.isSome ↔ 0 < fee)) := by
  refine ⟨?_, ?_, ?_, ?_, ?_⟩
  · intro hashFn signer evvmID addr username cn nonce fee nE flag r h
    simp only [signPreRegistrationUsername, bind, Except.bind, pure, Except.pure] at h
    cases hA : signer (buildMessageSignedForPreRegistrationUsername evvmID
        (hashFn username cn) nonce) with
    | error e => simp [hA] at h
    | ok a =>
      simp only [hA] at h
      by_cases hf : fee > 0
      · simp only [if_pos hf] at h
        cases hP : buildMessageSignedForPay evvmID (.str addr)
            "0x0000000000000000000000000000000000000001" fee 0 nE flag addr with
        | error e => simp [hP] at h
        | ok pm =>
          simp only [hP] at h
          cases hS : signer pm with
          | error e => simp [hS] at h
          | ok ps =>
            simp only [hS, Except.ok.injEq] at h
            rw [← h]
            simpa using hf
      · simp only [if_neg hf] at h
        simp only [Except.ok.injEq] at h
        rw [← h]
        simpa using hf
  · intro hashFn evvmID addr username cn nonce fee nE flag pm hpm
    by_cases ha : addr = ""
    · simp [buildMessageSignedForPay, ha] at hpm
    · simp only [buildMessageSignedForPay, if_neg ha, Except.ok.injEq] at hpm
      rw [← hpm]
      exact basic_pay_ne_preReg _ _ _
  · intro signer evvmID addr isStaking amt nSt tp fee nE flag r h
    simp only [signPublicStaking, bind, Except.bind, pure, Except.pure] at h
    cases hP : buildMessageSignedForPay evvmID (.str addr)
        "0x0000000000000000000000000000000000000001"
        (if isStaking then tp else 0) fee nE flag addr with
    | error e => simp [hP] at h
    | ok pm =>
      simp only [hP] at h
      cases hA : signer (buildMessageSignedForPublicStaking evvmID isStaking amt nSt) with
      | error e => simp [hA] at h
      | ok a =>
        simp only [hA] at h
        cases hS : signer pm with
        | error e => simp [hS] at h
        | ok ps =>
          simp only [hS, Except.ok.injEq] at h
          rw [← h]
          rfl
  · intro signer evvmID addr isStaking nonce fee tp nE flag r h
    simp only [signPresaleStaking, bind, Except.bind, pure, Except.pure] at h
    cases hP : buildMessageSignedForPay evvmID (.str addr)
        "0x0000000000000000000000000000000000000001"
        (if isStaking then tp else 0) fee nE flag addr with
    | error e => simp [hP] at h
    | ok pm =>
      simp only [hP] at h
      cases hA : signer (buildMessageSignedForPresaleStaking evvmID isStaking tp nonce) with
      | error e => simp [hA] at h
      | ok a =>
        simp only [hA] at h
        cases hS : signer pm with
        | error e => simp [hS] at h
        | ok ps =>
          simp only [hS, Except.ok.injEq] at h
          rw [← h]
          rfl
  · intro signer evvmID addr username cn nonce fee nE flag r h
    simp only [signRegistrationUsername, bind, Except.bind, pure, Except.pure] at h
    cases hA : signer (buildMessageSignedForRegistrationUsername evvmID username
        cn nonce) with
    | error e => simp [hA] at h
    | ok a =>
      simp only [hA] at h
      by_cases hf : fee > 0
      · simp only [if_pos hf] at h
        cases hP : buildMessageSignedForPay evvmID (.str addr)
            "0x0000000000000000000000000000000000000001" fee 0 nE flag addr with
        | error e => simp [hP] at h
        | ok pm =>
          simp only [hP] at h
          cases hS : signer pm with
          | error e => simp [hS] at h
          | ok ps =>
            simp only [hS, Except.ok.injEq] at h
            rw [← h]
            simpa using hf
      · simp only [if_neg hf] at h
        simp only [Except.ok.injEq] at h
        rw [← h]
        simpa using hf

/-- C3 (witness): the NameService conjunct applied at a zero fee and at
a non-zero fee, and the staking conjunct at a concrete run. -/
theorem c3_witness :
    (((signPreRegistrationUsername (fun _ _ => "0xdeadbeef") (fun m => Except.ok m)
        1 "0xaa" "alice" 7 8 0 9 false).map
          (fun r => r.paySignature.isSome)) = Except.ok false) ∧
    (((signPreRegistrationUsername (fun _ _ => "0xdeadbeef") (fun m => Except.ok m)
        1 "0xaa" "alice" 7 8 5 9 false).map
          (fun r => r.paySignature.isSome)) = Except.ok true) := by
  constructor
  · have h := c3_dual_signature_amended.1 (fun _ _ => "0xdeadbeef")
      (fun m => Except.ok m) 1 "0xaa" "alice" 7 8 0 9 false
      ((signPreRegistrationUsername (fun _ _ => "0xdeadbeef") (fun m => Except.ok m)
        1 "0xaa" "alice" 7 8 0 9 false).toOption.get (by decide)) (by decide)
    decide
  · have h := c3_dual_signature_amended.1 (fun _ _ => "0xdeadbeef")
      (fun m => Except.ok m) 1 "0xaa" "alice" 7 8 5 9 false
      ((signPreRegistrationUsername (fun _ _ => "0xdeadbeef") (fun m => Except.ok m)
        1 "0xaa" "alice" 7 8 5 9 false).toOption.get (by decide)) (by decide)
    decide

/-- C7: a wallet rejection propagates: when any `signMessage` call
rejects, the builder method returns exactly that error and no
signature; in particular when the action signature succeeded but the
subsequent pay signature fails, the whole result is the pay error and
the action signature is discarded. Shown for `signPublicStaking` and
`signPreRegistrationUsername`. -/
theorem c7_failure_propagation :
    (∀ (signer : Signer) (evvmID : Nat) (addr : String) (isStaking : Bool)
        (amt nSt tp fee nE : Nat) (flag : Bool) (pm e : String),
      buildMessageSignedForPay evvmID (.str addr)
          "0x0000000000000000000000000000000000000001"
          (if isStaking then tp else 0) fee nE flag addr = .ok pm →
      signer (buildMessageSignedForPublicStaking evvmID isStaking amt nSt) = .error e →
      signPublicStaking signer evvmID addr isStaking amt nSt tp fee nE flag =
        .error e) ∧
    (∀ (signer : Signer) (evvmID : Nat) (addr : String) (isStaking : Bool)
        (amt nSt tp fee nE : Nat) (flag : Bool) (a pm e : String),
      buildMessageSignedForPay evvmID (.str addr)
          "0x0000000000000000000000000000000000000001"
          (if isStaking then tp else 0) fee nE flag addr = .ok pm →
      signer (buildMessageSignedForPublicStaking evvmID isStaking amt nSt) = .ok a →
      signer pm = .error e →
      signPublicStaking signer evvmID addr isStaking amt nSt tp fee nE flag =
        .error e) ∧
    (∀ (hashFn : String → Nat → String) (signer : Signer) (evvmID : Nat)
        (addr username : String) (cn nonce fee nE : Nat) (flag : Bool) (e : String),
      signer (buildMessageSignedForPreRegistrationUsername evvmID
        (hashFn username cn) nonce) = .error e →
      signPreRegistrationUsername hashFn signer evvmID addr username cn nonce fee
        nE flag = .error e) ∧
    (∀ (hashFn : String → Nat → String) (signer : Signer) (evvmID : Nat)
        (addr username : String) (cn nonce fee nE : Nat) (flag : Bool)
        (a pm e : String),
      signer (buildMessageSignedForPreRegistrationUsername evvmID
        (hashFn username cn) nonce) = .ok a →
      0 < fee →
      buildMessageSignedForPay evvmID (.str addr)
          "0x0000000000000000000000000000000000000001" fee 0 nE flag addr = .ok pm →
      signer pm = .error e →
      signPreRegistrationUsername hashFn signer evvmID addr username cn nonce fee
        nE flag = .error e) ∧
    (∀ (signer : Signer) (evvmID : Nat) (addr : String) (tp nE : Nat) (flag : Bool)
        (pm e : String),
      buildMessageSignedForPay evvmID (.str addr)
          "0x0000000000000000000000000000000000000001" tp 0 nE flag addr = .ok pm →
      signer pm = .error e →
      signGoldenStaking signer evvmID addr tp nE flag = .error e) ∧
    (∀ (signer : Signer) (evvmID : Nat) (addr : String) (isStaking : Bool)
        (nonce fee tp nE : Nat) (flag : Bool) (pm e : String),
      buildMessageSignedForPay evvmID (.str addr)
          "0x0000000000000000000000000000000000000001"
          (if isStaking then tp else 0) fee nE flag addr = .ok pm →
      signer (buildMessageSignedForPresaleStaking evvmID isStaking tp nonce) =
        .error e →
      signPresaleStaking signer evvmID addr isStaking nonce fee tp nE flag =
        .error e) ∧
    (∀ (signer : Signer) (evvmID : Nat) (addr : String) (isStaking : Bool)
        (nonce fee tp nE : Nat) (flag : Bool) (a pm e : String),
      buildMessageSignedForPay evvmID (.str addr)
          "0x0000000000000000000000000000000000000001"
          (if isStaking then tp else 0) fee nE flag addr = .ok pm →
      signer (buildMessageSignedForPresaleStaking evvmID isStaking tp nonce) = .ok a →
      signer pm = .error e →
      signPresaleStaking signer evvmID addr isStaking nonce fee tp nE flag =
        .error e) ∧
    (∀ (signer : Signer) (evvmID : Nat) (addr username : String)
        (cn nonce fee nE : Nat) (flag : Bool) (e : String),
      signer (buildMessageSignedForRegistrationUsername evvmID username cn nonce) =
        .error e →
      signRegistrationUsername signer evvmID addr username cn nonce fee nE flag =
        .error e) ∧
    (∀ (signer : Signer) (evvmID : Nat) (addr username : String)
        (cn nonce fee nE : Nat) (flag : Bool) (a pm e : String),
      signer (buildMessageSignedForRegistrationUsername evvmID username cn nonce) =
        .ok a →
      0 < fee →
      buildMessageSignedForPay evvmID (.str addr)
          "0x0000000000000000000000000000000000000001" fee 0 nE flag addr = .ok pm →
      signer pm = .error e →
      signRegistrationUsername signer evvmID addr username cn nonce fee nE flag =
        .error e) ∧
    (∀ (signer : Signer) (evvmID : Nat) (toVal : JsVal) (token : String)
        (amount fee nonce : Nat) (flag : Bool) (exec m e : String),
      buildMessageSignedForPay evvmID toVal token amount fee nonce flag exec = .ok m →
      signer m = .error e →
      signPay signer evvmID toVal token amount fee nonce flag exec = .error e) ∧
    (∀ (sha256 : String → String)
        (encodeAbiDisperse : List (Nat × String × String) → String) (signer : Signer)
        (evvmID : Nat) (toData : List DispersePayMetadata) (token : String)
        (amount fee nonce : Nat) (flag : Bool) (exec e : String),
      signer (buildMessageSignedForDispersePay evvmID
        (hashDispersePaymentUsersToPay sha256 encodeAbiDisperse toData) token amount
        fee nonce flag exec) = .error e →
      signDispersePay sha256 encodeAbiDisperse signer evvmID toData token amount fee
        nonce flag exec = .error e) := by
  refine ⟨?_, ?_, ?_, ?_, ?_, ?_, ?_, ?_, ?_, ?_, ?_⟩
  · intro signer evvmID addr isStaking amt nSt tp fee nE flag pm e hP hA
    simp [signPublicStaking, bind, Except.bind, hP, hA]
  · intro signer evvmID addr isStaking amt nSt tp fee nE flag a pm e hP hA hS
    simp [signPublicStaking, bind, Except.bind, hP, hA, hS]
  · intro hashFn signer evvmID addr username cn nonce fee nE flag e hA
    simp [signPreRegistrationUsername, bind, Except.bind, hA]
  · intro hashFn signer evvmID addr username cn nonce fee nE flag a pm e hA hf hP hS
    simp [signPreRegistrationUsername, bind, Except.bind, hA, hf, hP, hS]
  · intro signer evvmID addr tp nE flag pm e hP hS
    simp [signGoldenStaking, bind, Except.bind, hP, hS]
  · intro signer evvmID addr isStaking nonce fee tp nE flag pm e hP hA
    simp [signPresaleStaking, bind, Except.bind, hP, hA]
  · intro signer evvmID addr isStaking nonce fee tp nE flag a pm e hP hA hS
    simp [signPresaleStaking, bind, Except.bind, hP, hA, hS]
  · intro signer evvmID addr username cn nonce fee nE flag e hA
    simp [signRegistrationUsername, bind, Except.bind, hA]
  · intro signer evvmID addr username cn nonce fee nE flag a pm e hA hf hP hS
    simp [signRegistrationUsername, bind, Except.bind, hA, hf, hP, hS]
  · intro signer evvmID toVal token amount fee nonce flag exec m e hM hS
    simp [signPay, bind, Except.bind, hM, hS]
  · intro sha256 encodeAbiDisperse signer evvmID toData token amount fee nonce flag
      exec e hS
    simpa [signDispersePay] using hS

/-- C7 (witness): a concrete run of `signPublicStaking` where the
action signature succeeds and the pay signature is rejected returns
exactly the rejection and discards the action signature. -/
theorem c7_witness :
    signPublicStaking
      (fun m =>
        if m =
          "1,pay,0xaaaaaaaaaaaaaaaaaaaaaaaaaaaaaaaaaaaaaaaa,0x0000000000000000000000000000000000000001,5,7,9,true,0xaaaaaaaaaaaaaaaaaaaaaaaaaaaaaaaaaaaaaaaa"
        then Except.error "user rejected" else Except.ok "sig")
      1 "0xaaaaaaaaaaaaaaaaaaaaaaaaaaaaaaaaaaaaaaaa" true 2 3 5 7 9 true =
      Except.error "user rejected" :=
  c7_failure_propagation.2.1
    (fun m =>
      if m =
        "1,pay,0xaaaaaaaaaaaaaaaaaaaaaaaaaaaaaaaaaaaaaaaa,0x0000000000000000000000000000000000000001,5,7,9,true,0xaaaaaaaaaaaaaaaaaaaaaaaaaaaaaaaaaaaaaaaa"
      then Except.error "user rejected" else Except.ok "sig")
    1 "0xaaaaaaaaaaaaaaaaaaaaaaaaaaaaaaaaaaaaaaaa" true 2 3 5 7 9 true "sig"
    "1,pay,0xaaaaaaaaaaaaaaaaaaaaaaaaaaaaaaaaaaaaaaaa,0x0000000000000000000000000000000000000001,5,7,9,true,0xaaaaaaaaaaaaaaaaaaaaaaaaaaaaaaaaaaaaaaaa"
    "user rejected" (by decide) (by decide) (by decide)

/-- C8: `signDispersePay` signs exactly the disperse-pay canonical
message built from `hashDispersePaymentUsersToPay toData` (the content
hash of the structurally encoded recipient tuple list, with the viem
`sha256` and ABI tuple-list encoder as abstract parameters) in place of
the raw recipient list. -/
theorem c8_disperse_hash_composition (sha256 : String → String)
    (encodeAbiDisperse : List (Nat × String × String) → String) (signer : Signer)
    (evvmID : Nat) (toData : List DispersePayMetadata) (token : String)
    (amount fee nonce : Nat) (flag : Bool) (exec : String) :
    signDispersePay sha256 encodeAbiDisperse signer evvmID toData token amount fee
        nonce flag exec =
      signer (buildMessageSignedForDispersePay evvmID
        (hashDispersePaymentUsersToPay sha256 encodeAbiDisperse toData) token amount
        fee nonce flag exec) ∧
    hashDispersePaymentUsersToPay sha256 encodeAbiDisperse toData =
      sha256 (encodeAbiDisperse (toData.map
        (fun item => (item.amount, item.to_address, item.to_identity)))) :=
  ⟨rfl, rfl⟩

/-- C10: `GenericSignatureBuilder.buildGenericMessage` agrees with
`basicMessageBuilder` applied to the decimal chain id, and both are the
comma concatenation of the chain id, the function name and the inputs. -/
theorem c10_generic_equals_basic (evvmID : Nat) (functionName inputs : String) :
    buildGenericMessage evvmID functionName inputs =
      basicMessageBuilder (bigintToString evvmID) functionName inputs ∧
    buildGenericMessage evvmID functionName inputs =
      bigintToString evvmID ++ "," ++ functionName ++ "," ++ inputs :=
  ⟨rfl, rfl⟩

end EvvmSig
